import Mathlib

/-!
Shallow embedding of two components of the batchflow repository:

* `ResBlock.__init__` configuration resolution
  (src/batchflow/models/eager_torch/resnet.py), together with the
  `default_config` override chain of the ResNet/ResNeXt architecture registry;
* the `dropblock` structured-dropout operator
  (src/batchflow/models/tf/layers/drop_block.py).

Python integers are modelled as `Int`, floating-point quantities as `ℚ`
(exact field arithmetic), Python lists as `List`, and raised exceptions as
`Except String`.  Random sampling (the Bernoulli draw inside dropblock) is
modelled by passing the sampled values in as an explicit oracle argument.
-/

/- ======================  ResBlock configuration resolution  ====================== -/

/-- The conv-designating layout letters, from `CONV_LETTERS` in resnet.py. -/
def CONV_LETTERS : List Char := ['c', 'C', 'w', 'W', 't', 'T']

/-- Number of convolution letters in a layout string
(`sum([letter in CONV_LETTERS for letter in layout])`). -/
def numConvs (layout : List Char) : Nat :=
  (layout.filter (fun c => CONV_LETTERS.contains c)).length

/-- The `filters` argument of `ResBlock.__init__`: an int, a per-conv list, or the
symbolic string resolved by `eval` against the input channel count
(`'same'` / `'S'` both evaluate to the number of input channels). -/
inductive FiltersArg
  | fSame
  | fInt (n : Int)
  | fList (l : List Int)
deriving DecidableEq

/-- An argument that may be a single int or a per-conv list (`kernel_size`, `strides`). -/
inductive IntOrList
  | iInt (n : Int)
  | iList (l : List Int)
deriving DecidableEq

/-- A Python value that is either `False`, `True`, or an int, with Python
truthiness (`downsample`, `bottleneck`). -/
inductive FlagArg
  | fFalse
  | fTrue
  | fVal (n : Int)
deriving DecidableEq

/-- Python truthiness of a `FlagArg` (`if downsample:` / `if bottleneck:`). -/
def FlagArg.truthy : FlagArg → Bool
  | .fFalse => false
  | .fTrue => true
  | .fVal n => n != 0

/-- `downsample = 2 if downsample is True else downsample` (line 45). -/
def downsampleFactor : FlagArg → Int
  | .fTrue => 2
  | .fVal n => n
  | .fFalse => 1

/-- `bottleneck = 4 if bottleneck is True else bottleneck` (line 54). -/
def bottleneckFactor : FlagArg → Int
  | .fTrue => 4
  | .fVal n => n
  | .fFalse => 1

/-- The `groups` argument: an int or a sequence (the code never inspects which). -/
inductive GroupEntry
  | gInt (n : Int)
  | gList (l : List Int)
deriving DecidableEq

/-- `x = [x] * num_convs if isinstance(x, int) else x` (lines 37–38). -/
def broadcastIntOrList (n : Nat) : IntOrList → List Int
  | .iInt v => List.replicate n v
  | .iList l => l

/-- Lines 33–36: a string argument is evaluated to the input channel count and
then the int branch of the broadcast applies; an int is broadcast; a list is
kept as given. -/
def resolveFiltersArg (inputChannels : Int) (n : Nat) : FiltersArg → List Int
  | .fSame => List.replicate n inputChannels
  | .fInt v => List.replicate n v
  | .fList l => l

/-- `strides_d[0] *= downsample` (line 46): the head of the list is multiplied. -/
def mulHead (d : Int) : List Int → List Int
  | [] => []
  | x :: xs => x * d :: xs

/-- The bottleneck wrapping of a per-conv int list: `[1] + l + [1]` when the
bottleneck flag is truthy (lines 50–52). -/
def wrapOnes (b : Bool) (l : List Int) : List Int :=
  if b then 1 :: l ++ [1] else l

/-- One entry of `layer_params` (line 58): per-repetition overriding parameters. -/
structure RepOverride where
  strides : List Int
  side_branch_strides : Int
deriving DecidableEq

/-- Everything `ResBlock.__init__` resolves before delegating to `ConvBlock`. -/
structure Resolved where
  layoutExpanded : List Char
  layout : List Char
  filters : List Int
  kernel_size : List Int
  strides : List Int
  strides_d : List Int
  groups : List GroupEntry
  side_branch_stride : Int
  side_branch_stride_d : Int
  side_branch_filters : Int
  layer_params : List (Option RepOverride)
deriving DecidableEq

/-- Shallow embedding of `ResBlock.__init__` (resnet.py lines 26–62), following
the source statement by statement.  `n_reps - 1` is `Nat` subtraction, matching
Python's `[{}]*(n_reps-1)` which is empty for `n_reps <= 1`. -/
def resolveResBlock (inputChannels : Int) (layout : List Char) (filters : FiltersArg)
    (kernel_size : IntOrList) (strides : IntOrList) (downsample : FlagArg)
    (bottleneck : FlagArg) (groups : GroupEntry) (op : Char) (n_reps : Nat) : Resolved :=
  let num_convs := numConvs layout
  let filtersL := resolveFiltersArg inputChannels num_convs filters
  let kernelL := broadcastIntOrList num_convs kernel_size
  let stridesL := broadcastIntOrList num_convs strides
  let groupsL := List.replicate num_convs groups
  let sbs : Int := stridesL.prod
  let strides_d0 := if downsample.truthy then mulHead (downsampleFactor downsample) stridesL
                    else stridesL
  let sbs_d := if downsample.truthy then sbs * downsampleFactor downsample else sbs
  let bt := bottleneck.truthy
  let layoutE := if bt then ['c', 'n', 'a'] ++ layout ++ ['c', 'n', 'a'] else layout
  let kernelF := wrapOnes bt kernelL
  let stridesF := wrapOnes bt stridesL
  let strides_dF := wrapOnes bt strides_d0
  let groupsF := if bt then .gInt 1 :: groupsL ++ [.gInt 1] else groupsL
  let filtersF := if bt then
      filtersL.headD 0 :: filtersL ++ [filtersL.headD 0 * bottleneckFactor bottleneck]
    else filtersL
  { layoutExpanded := layoutE
    layout := 'B' :: layoutE ++ [op]
    filters := filtersF
    kernel_size := kernelF
    strides := stridesF
    strides_d := strides_dF
    groups := groupsF
    side_branch_stride := sbs
    side_branch_stride_d := sbs_d
    side_branch_filters := filtersF.getLastD 0
    layer_params := some ⟨strides_dF, sbs_d⟩ :: List.replicate (n_reps - 1) none }

/-- Modelled from the spec: the external `ConvBlock` builder (not under src/)
validates that sequence-valued per-conv parameters match the number of
convolution letters in the layout; mismatched list lengths fail fast.  A
configuration accepted without error therefore has each explicitly given
sequence with one entry per convolution.  This function checks the filters
argument. -/
def fitsFilters (layout : List Char) : FiltersArg → Bool
  | .fList l => l.length = numConvs layout
  | _ => true

/-- Whether a kernel-size or strides argument, when sequence-valued, already
has one entry per convolution (part of the spec-modelled acceptance). -/
def fitsIntOrList (layout : List Char) : IntOrList → Bool
  | .iList l => l.length = numConvs layout
  | _ => true

/-- Whether a groups argument, when sequence-valued, already has one entry per
convolution (part of the spec-modelled acceptance). -/
def fitsGroups (layout : List Char) : GroupEntry → Bool
  | .gList l => l.length = numConvs layout
  | _ => true

/-- Spec-modelled acceptance: every explicitly given sequence matches the
convolution count of the layout. -/
def acceptedResBlockConfig (layout : List Char) (filters : FiltersArg)
    (kernel_size : IntOrList) (strides : IntOrList) (groups : GroupEntry) : Bool :=
  fitsFilters layout filters && fitsIntOrList layout kernel_size &&
    fitsIntOrList layout strides && fitsGroups layout groups

/-- Modelled from the spec: `ConvBlock` (not under src/) applies the i-th entry
of `layer_params` as overriding parameters of the i-th repetition; a repetition
with an empty entry keeps the block-level strides. -/
def repStrides (r : Resolved) (i : Nat) : List Int :=
  match r.layer_params.getD i none with
  | some o => o.strides
  | none => r.strides

/-- Modelled from the spec: as `repStrides`, for the side-branch stride. -/
def repSideStride (r : Resolved) (i : Nat) : Int :=
  match r.layer_params.getD i none with
  | some o => o.side_branch_strides
  | none => r.side_branch_stride

/- ======================  dropblock (drop_block.py)  ====================== -/

/-- A multi-dimensional index: one integer per axis. -/
abbrev Idx := List Int

/-- A dense tensor: a shape and a total data function (only in-bounds indices
are meaningful). -/
structure Shaped where
  shape : List Int
  data : Idx → ℚ

/-- `[0, 1, ..., n-1]` as integers. -/
def rangeInt (n : Int) : List Int :=
  (List.range n.toNat).map Int.ofNat

/-- All in-bounds indices of a shape, in row-major order. -/
def enumIdx : List Int → List Idx
  | [] => [[]]
  | d :: ds => (rangeInt d).flatMap (fun i => (enumIdx ds).map (fun rest => i :: rest))

/-- Whether an index is in bounds for a shape. -/
def inBounds (shape : List Int) (idx : Idx) : Bool :=
  idx.length = shape.length &&
    (List.zip idx shape).all (fun p => 0 ≤ p.1 && p.1 < p.2)

/-- Sum of all entries of a tensor (`tf.reduce_sum`). -/
def sumArr (a : Shaped) : ℚ :=
  ((enumIdx a.shape).map a.data).sum

/-- Number of entries of a tensor (`tf.size`), as a rational. -/
def sizeArr (a : Shaped) : ℚ :=
  ((a.shape.prod : Int) : ℚ)

/-- `tf.pad` with per-axis (left, right) zero padding (line 95). -/
def padArr (pads : List (Int × Int)) (a : Shaped) : Shaped :=
  { shape := List.zipWith (fun p d => p.1 + d + p.2) pads a.shape
    data := fun idx =>
      let inner := List.zipWith (fun p i => i - p.1) pads idx
      if inBounds a.shape inner then a.data inner else 0 }

/-- Modelled from the spec: `max_pooling` (not under src/) dilates seed points
with the given per-axis window, stride 1 and SAME padding (spec step 7).
Out-of-bounds positions contribute `0`, which for the 0/1-valued masks used
here coincides with excluding them from the maximum. -/
def maxPoolSame (window : List Int) (a : Shaped) : Shaped :=
  { shape := a.shape
    data := fun idx =>
      let padL := window.map (fun w => (w - 1) / 2)
      let vals := (enumIdx window).map (fun off =>
        let src := List.zipWith (fun p i => i - p.1 + p.2) (List.zip padL off) idx
        if inBounds a.shape src then a.data src else 0)
      vals.foldr max 0 }

/-- Elementwise product with broadcasting of size-1 axes of the mask
(`tf.multiply(inputs, mask)`, line 103; the mask's batch axis has extent 1). -/
def mulBroadcastBatch (inputs mask : Shaped) : Shaped :=
  { shape := inputs.shape
    data := fun idx =>
      inputs.data idx *
        mask.data (List.zipWith (fun d i => if d = 1 then 0 else i) mask.shape idx) }

/-- The `data_format` argument. -/
inductive DataFormat
  | channelsFirst
  | channelsLast
deriving DecidableEq

/-- `input_shape[2:]` (channels_first) or `input_shape[1:-1]` (channels_last),
lines 52–55. -/
def spatialDimsOf : DataFormat → List Int → List Int
  | .channelsFirst, s => s.drop 2
  | .channelsLast, s => (s.drop 1).dropLast

/-- `input_shape[1:2]` (channels_first) or `input_shape[-1:]` (channels_last). -/
def channelsOf : DataFormat → List Int → List Int
  | .channelsFirst, s => (s.drop 1).take 1
  | .channelsLast, s => s.drop (s.length - 1)

/-- The `block_size` argument: an int, a tuple, or anything else (the
docstring advertises floats, which the code rejects). -/
inductive BlockArg
  | bInt (n : Int)
  | bTuple (l : List Int)
  | bFloat (q : ℚ)
deriving DecidableEq

/-- Lines 58–66: broadcast an int over the spatial dimensions, validate a
tuple's length, and reject any other type. -/
def resolveBlockSize (bs : BlockArg) (spatial_ndim : Nat) : Except String (List Int) :=
  match bs with
  | .bInt n => .ok (List.replicate spatial_ndim n)
  | .bTuple l =>
      if l.length = spatial_ndim then .ok l
      else .error "Length of `block_size` should be the same as spatial dimensions of input."
  | .bFloat _ => .error "block_size should be int or tuple!"

/-- Lines 67–68: `minimum(block_size, spatial_dims)` then `maximum(., 1)`,
elementwise. -/
def clampBlockSize (raw spatial : List Int) : List Int :=
  (List.zipWith min raw spatial).map (fun x => max x 1)

/-- Line 73: `inner_area = spatial_dims - block_size_tf + one`. -/
def innerArea (spatial clamped : List Int) : List Int :=
  List.zipWith (fun s b => s - b + 1) spatial clamped

/-- Product of an int list as a rational. -/
def prodQ (l : List Int) : ℚ :=
  ((l.prod : Int) : ℚ)

/-- Lines 76–77: `gamma = dropout_rate * prod(spatial) / prod(block) / prod(inner)`. -/
def gammaOf (rate : ℚ) (spatial clamped : List Int) : ℚ :=
  rate * prodQ spatial / prodQ clamped / prodQ (innerArea spatial clamped)

/-- Lines 82–85: the shape at which the Bernoulli seed mask is sampled. -/
def samplingMaskShape : DataFormat → List Int → List Int → List Int
  | .channelsFirst, channels, inner => 1 :: channels ++ inner
  | .channelsLast, channels, inner => 1 :: inner ++ channels

/-- Lines 88–94: per-axis (left, right) zero pads bringing the seed mask back
to full spatial resolution; left = (b-1)/2, right = b-1-left on spatial axes. -/
def fullPads (df : DataFormat) (clamped : List Int) : List (Int × Int) :=
  let sp := clamped.map (fun b => ((b - 1) / 2, b - 1 - (b - 1) / 2))
  match df with
  | .channelsFirst => (0, 0) :: (0, 0) :: sp
  | .channelsLast => (0, 0) :: sp ++ [(0, 0)]

/-- Line 98–101: the per-axis pooling window.  The spatial entries are the
UNCLAMPED requested block sizes (`pool_size = block_size`, the Python-level
value from line 59/61, not the clamped tensor `block_size_tf`). -/
def poolDims (df : DataFormat) (raw : List Int) : List Int :=
  match df with
  | .channelsFirst => 1 :: 1 :: raw
  | .channelsLast => 1 :: raw ++ [1]

/-- The kept/dropped mask computed by `_dropblock` (lines 47–102): resolve and
clamp the block size, sample seed points on the inner area (the sample is the
`noise` oracle, a function of `gamma`), pad, dilate with max pooling, and
invert.  Returns the mask whose zeros are the dropped positions. -/
def dropblockMask (inputs : Shaped) (rate : ℚ) (bs : BlockArg)
    (noise : ℚ → Idx → ℚ) (df : DataFormat) : Except String Shaped :=
  let ishape := inputs.shape
  let spatial := spatialDimsOf df ishape
  let channels := channelsOf df ishape
  match resolveBlockSize bs spatial.length with
  | .error e => .error e
  | .ok bsRaw =>
      let bsC := clampBlockSize bsRaw spatial
      let inner := innerArea spatial bsC
      let gamma := gammaOf rate spatial bsC
      let seed : Shaped := ⟨samplingMaskShape df channels inner, noise gamma⟩
      let padded := padArr (fullPads df bsC) seed
      let pooled := maxPoolSame (poolDims df bsRaw) padded
      .ok ⟨pooled.shape, fun i => 1 - pooled.data i⟩

/-- `_dropblock` (lines 44–107): mask the input and rescale by
`size(mask) / sum(mask)` — the division has no epsilon or zero guard. -/
def _dropblock (inputs : Shaped) (rate : ℚ) (bs : BlockArg)
    (noise : ℚ → Idx → ℚ) (df : DataFormat) : Except String Shaped :=
  match dropblockMask inputs rate bs noise df with
  | .error e => .error e
  | .ok mask =>
      let output := mulBroadcastBatch inputs mask
      .ok ⟨output.shape, fun i => output.data i * sizeArr mask / sumArr mask⟩

/-- Result of the public `dropblock`, with a flag recording whether the
sampling branch (`false_fn`, line 41) was taken. -/
structure DropResult where
  out : Except String Shaped
  sampled : Bool

/-- `dropblock` (lines 14–42): `tf.cond` on
`logical_or(logical_not(is_training), equal(dropout_rate, 0.0))`; the true
branch returns the input with no computation, the false branch runs
`_dropblock` (which draws a Bernoulli sample). -/
def dropblock (inputs : Shaped) (rate : ℚ) (bs : BlockArg) (is_training : Bool)
    (df : DataFormat) (noise : ℚ → Idx → ℚ) : DropResult :=
  if is_training = false ∨ rate = 0 then ⟨.ok inputs, false⟩
  else ⟨_dropblock inputs rate bs noise df, true⟩

/-- Formalisation of claim C6's words, for comparison with `dropblockMask`
(the source): identical pipeline except that the max-pooling dilation window
also uses the CLAMPED block size, as the claim's "effective block size used by
dropblock" would require. -/
def dropblockMaskClaim (inputs : Shaped) (rate : ℚ) (bs : BlockArg)
    (noise : ℚ → Idx → ℚ) (df : DataFormat) : Except String Shaped :=
  let ishape := inputs.shape
  let spatial := spatialDimsOf df ishape
  let channels := channelsOf df ishape
  match resolveBlockSize bs spatial.length with
  | .error e => .error e
  | .ok bsRaw =>
      let bsC := clampBlockSize bsRaw spatial
      let inner := innerArea spatial bsC
      let gamma := gammaOf rate spatial bsC
      let seed : Shaped := ⟨samplingMaskShape df channels inner, noise gamma⟩
      let padded := padArr (fullPads df bsC) seed
      let pooled := maxPoolSame (poolDims df bsC) padded
      .ok ⟨pooled.shape, fun i => 1 - pooled.data i⟩

deriving instance DecidableEq for Except

/-- A noise oracle whose every Bernoulli draw is 1 (a possible sample whenever
gamma is positive). -/
def onesNoise : ℚ → Idx → ℚ := fun _ _ => 1

/-- Whether an Except is a success. -/
def exceptIsOk (e : Except String Shaped) : Bool :=
  match e with
  | .ok _ => true
  | .error _ => false

/-- A concrete input tensor of shape [1, 1, 1] (batch 1, one spatial position,
one channel, channels_last). -/
def inputs111 : Shaped := ⟨[1, 1, 1], fun _ => 5⟩

/-- A concrete input tensor of shape [1, 4, 1]. -/
def inputs141 : Shaped := ⟨[1, 4, 1], fun _ => 1⟩

/- ==============  ResNet / ResNeXt default_config override chain  ============== -/

/-- A configuration leaf value (ints, bools, strings, lists, rationals, and a
module reference for `base=ResBlock`). -/
inductive CVal
  | vInt (n : Int)
  | vBool (b : Bool)
  | vStr (s : String)
  | vIntList (l : List Int)
  | vBoolList (l : List Bool)
  | vStrList (l : List String)
  | vRat (q : ℚ)
  | vModule (s : String)
deriving DecidableEq

/-- Modelled from the spec: the hierarchical key-path configuration (the
batchflow `Config` class is not under src/) is a last-writer-wins store of
leaf-path to value bindings; merging a dict into a subtree updates each of its
leaf paths. -/
abbrev Config := List (String × CVal)

/-- Set one leaf path (last writer wins: newest binding shadows older ones). -/
def cset (c : Config) (k : String) (v : CVal) : Config := (k, v) :: c

/-- Look a leaf path up (newest binding first). -/
def cget (c : Config) (k : String) : Option CVal :=
  (c.find? (fun p => p.1 == k)).map (fun p => p.2)

/-- `ResNet.default_config` (resnet.py lines 76–95) applied on top of the
Encoder base config (not under src/, taken as an arbitrary argument). -/
def resNetDefaultConfig (base : Config) : Config :=
  let c := cset base "common/conv/bias" (.vBool false)
  let c := cset c "initial_block/layout" (.vStr "cnap")
  let c := cset c "initial_block/filters" (.vInt 64)
  let c := cset c "initial_block/kernel_size" (.vInt 7)
  let c := cset c "initial_block/strides" (.vInt 2)
  let c := cset c "initial_block/pool_size" (.vInt 3)
  let c := cset c "initial_block/pool_strides" (.vInt 2)
  let c := cset c "body/encoder/num_stages" (.vInt 4)
  let c := cset c "body/encoder/order" (.vStrList ["block"])
  let c := cset c "body/encoder/blocks/base" (.vModule "ResBlock")
  let c := cset c "body/encoder/blocks/layout" (.vStr "cnacna")
  let c := cset c "body/encoder/blocks/filters" (.vIntList [64, 128, 256, 512])
  let c := cset c "body/encoder/blocks/n_reps" (.vIntList [1, 1, 1, 1])
  let c := cset c "body/encoder/blocks/downsample" (.vBoolList [false, true, true, true])
  let c := cset c "body/encoder/blocks/bottleneck" (.vBool false)
  let c := cset c "head/layout" (.vStr "Vdf")
  let c := cset c "head/dropout_rate" (.vRat (2/5))
  cset c "loss" (.vStr "ce")

/-- `ResNet34.default_config` (lines 116–122). -/
def resNet34DefaultConfig (base : Config) : Config :=
  cset (resNetDefaultConfig base) "body/encoder/blocks/n_reps" (.vIntList [3, 4, 6, 3])

/-- `ResNet50.default_config` (lines 125–132). -/
def resNet50DefaultConfig (base : Config) : Config :=
  let c := cset (resNet34DefaultConfig base) "body/encoder/blocks/layout" (.vStr "cna")
  cset c "body/encoder/blocks/bottleneck" (.vBool true)

/-- `ResNeXt50.default_config` (lines 170–176). -/
def resNeXt50DefaultConfig (base : Config) : Config :=
  cset (resNet50DefaultConfig base) "body/encoder/blocks/groups" (.vInt 32)

/- ======================  Helper lemmas  ====================== -/

theorem getD_replicate_self {α : Type} (a : α) (n k : Nat) :
    (List.replicate n a).getD k a = a := by
  induction n generalizing k with
  | zero => simp [List.getD]
  | succ m ih => cases k <;> simp [List.replicate, ih]

theorem mulHead_length (d : Int) (l : List Int) : (mulHead d l).length = l.length := by
  cases l <;> simp [mulHead]

theorem numConvs_wrap (l : List Char) :
    numConvs ('c' :: 'n' :: 'a' :: (l ++ ['c', 'n', 'a'])) = numConvs l + 2 := by
  simp [numConvs, List.filter_append, CONV_LETTERS]

theorem clamp_elem (b s : Int) (hs : 1 ≤ s) : max (min b s) 1 = min s (max 1 b) := by
  simp [min_def, max_def]
  split_ifs <;> omega

/- ======================  Claim theorems  ====================== -/

/-- C1 (counterexample): with `layout='cnacna'`, `filters=[64, 128]`, input
channel count 16 and `bottleneck=True` (expansion 4), the resolved filters list
is `[64, 64, 128, 256]`: its front entry is `filters[0] = 64`, not the input
channel count 16, and its last entry is `filters[0] * 4 = 256`, not
`original_last_filter * 4 = 512`. -/
theorem c1_counterexample :
    ((resolveResBlock 16 ['c','n','a','c','n','a'] (.fList [64, 128]) (.iInt 3) (.iInt 1)
        .fFalse .fTrue (.gInt 1) '+' 1).filters = [64, 64, 128, 256])
    ∧ ((resolveResBlock 16 ['c','n','a','c','n','a'] (.fList [64, 128]) (.iInt 3) (.iInt 1)
        .fFalse .fTrue (.gInt 1) '+' 1).filters.headD 0 ≠ 16)
    ∧ ((resolveResBlock 16 ['c','n','a','c','n','a'] (.fList [64, 128]) (.iInt 3) (.iInt 1)
        .fFalse .fTrue (.gInt 1) '+' 1).filters.getLastD 0 ≠ 128 * 4) := by
  decide

/-- C1 (amended): enabling bottleneck with expansion factor k lengthens the
resolved filters list by exactly 2; the front entry equals the FIRST entry of
the original resolved filters list (hence the input channel count when filters
is `'same'`), and the last entry equals that first entry times k. -/
theorem c1_bottleneck_filters (inputChannels : Int) (layout : List Char)
    (filters : FiltersArg) (ks st : IntOrList) (ds bt : FlagArg) (g : GroupEntry)
    (op : Char) (n_reps : Nat) (hb : bt.truthy = true)
    (hne : resolveFiltersArg inputChannels (numConvs layout) filters ≠ []) :
    ((resolveResBlock inputChannels layout filters ks st ds bt g op n_reps).filters
      = (resolveFiltersArg inputChannels (numConvs layout) filters).headD 0
          :: resolveFiltersArg inputChannels (numConvs layout) filters
          ++ [(resolveFiltersArg inputChannels (numConvs layout) filters).headD 0
              * bottleneckFactor bt])
    ∧ (resolveResBlock inputChannels layout filters ks st ds bt g op n_reps).filters.length
      = (resolveFiltersArg inputChannels (numConvs layout) filters).length + 2 := by
  unfold resolveResBlock
  simp [hb]

/-- C1 (witness): the amended statement evaluated at the standard
`filters='same'` bottleneck configuration. -/
theorem c1_witness :
    ((resolveResBlock 64 ['c','n','a','c','n','a'] .fSame (.iInt 3) (.iInt 1)
        .fFalse .fTrue (.gInt 1) '+' 1).filters
      = (resolveFiltersArg 64 (numConvs ['c','n','a','c','n','a']) .fSame).headD 0
          :: resolveFiltersArg 64 (numConvs ['c','n','a','c','n','a']) .fSame
          ++ [(resolveFiltersArg 64 (numConvs ['c','n','a','c','n','a']) .fSame).headD 0
              * bottleneckFactor .fTrue])
    ∧ (resolveResBlock 64 ['c','n','a','c','n','a'] .fSame (.iInt 3) (.iInt 1)
        .fFalse .fTrue (.gInt 1) '+' 1).filters.length
      = (resolveFiltersArg 64 (numConvs ['c','n','a','c','n','a']) .fSame).length + 2 :=
  c1_bottleneck_filters 64 ['c','n','a','c','n','a'] .fSame (.iInt 3) (.iInt 1)
    .fFalse .fTrue (.gInt 1) '+' 1 (by decide) (by decide)

/-- C3: for every configuration accepted without error (sequence-valued
parameters already matching the convolution count), the five resolved per-conv
lists all have length equal to the number of convolution letters in the layout
after bottleneck expansion. -/
theorem c3_per_conv_lengths (ic : Int) (layout : List Char) (filters : FiltersArg)
    (ks st : IntOrList) (ds bt : FlagArg) (g : GroupEntry) (op : Char) (n_reps : Nat)
    (hacc : acceptedResBlockConfig layout filters ks st g = true) :
    ((resolveResBlock ic layout filters ks st ds bt g op n_reps).filters.length
      = numConvs (resolveResBlock ic layout filters ks st ds bt g op n_reps).layoutExpanded)
    ∧ ((resolveResBlock ic layout filters ks st ds bt g op n_reps).kernel_size.length
      = numConvs (resolveResBlock ic layout filters ks st ds bt g op n_reps).layoutExpanded)
    ∧ ((resolveResBlock ic layout filters ks st ds bt g op n_reps).strides.length
      = numConvs (resolveResBlock ic layout filters ks st ds bt g op n_reps).layoutExpanded)
    ∧ ((resolveResBlock ic layout filters ks st ds bt g op n_reps).strides_d.length
      = numConvs (resolveResBlock ic layout filters ks st ds bt g op n_reps).layoutExpanded)
    ∧ ((resolveResBlock ic layout filters ks st ds bt g op n_reps).groups.length
      = numConvs (resolveResBlock ic layout filters ks st ds bt g op n_reps).layoutExpanded) := by
  rw [acceptedResBlockConfig, Bool.and_eq_true, Bool.and_eq_true, Bool.and_eq_true] at hacc
  obtain ⟨⟨⟨h1, h2⟩, h3⟩, h4⟩ := hacc
  have hf : (resolveFiltersArg ic (numConvs layout) filters).length = numConvs layout := by
    cases filters with
    | fSame => simp [resolveFiltersArg]
    | fInt n => simp [resolveFiltersArg]
    | fList l => simpa [resolveFiltersArg, fitsFilters] using h1
  have hk : (broadcastIntOrList (numConvs layout) ks).length = numConvs layout := by
    cases ks with
    | iInt n => simp [broadcastIntOrList]
    | iList l => simpa [broadcastIntOrList, fitsIntOrList] using h2
  have hs : (broadcastIntOrList (numConvs layout) st).length = numConvs layout := by
    cases st with
    | iInt n => simp [broadcastIntOrList]
    | iList l => simpa [broadcastIntOrList, fitsIntOrList] using h3
  unfold resolveResBlock
  cases hbt : bt.truthy <;> cases hds : ds.truthy <;>
    simp [hbt, hds, numConvs_wrap, hf, hk, hs, mulHead_length, wrapOnes]

/-- C3 (witness): the lengths statement at a concrete accepted configuration
with explicit per-conv sequences, downsample and bottleneck. -/
theorem c3_witness :
    (resolveResBlock 7 ['c','n','a','c','n','a'] (.fList [3, 4]) (.iInt 3) (.iList [1, 2])
        .fTrue .fTrue (.gList [5, 6]) '+' 2).filters.length
      = numConvs (resolveResBlock 7 ['c','n','a','c','n','a'] (.fList [3, 4]) (.iInt 3)
          (.iList [1, 2]) .fTrue .fTrue (.gList [5, 6]) '+' 2).layoutExpanded :=
  (c3_per_conv_lengths 7 ['c','n','a','c','n','a'] (.fList [3, 4]) (.iInt 3) (.iList [1, 2])
    .fTrue .fTrue (.gList [5, 6]) '+' 2 (by decide)).1

/-- C4: with downsample enabled (factor d), the block-level strides are the
broadcast strides unchanged; strides_d multiplies the first main-path
convolution's stride by d; the first repetition's overriding parameters are
strides_d and side-branch stride (product of main-path strides) times d; every
later repetition keeps the unmodified strides and the unmodified side-branch
stride. -/
theorem c4_downsample (ic : Int) (layout : List Char) (filters : FiltersArg)
    (ks st : IntOrList) (ds bt : FlagArg) (g : GroupEntry) (op : Char) (n_reps : Nat)
    (hd : ds.truthy = true) :
    ((resolveResBlock ic layout filters ks st ds bt g op n_reps).strides
      = wrapOnes bt.truthy (broadcastIntOrList (numConvs layout) st))
    ∧ ((resolveResBlock ic layout filters ks st ds bt g op n_reps).strides_d
      = wrapOnes bt.truthy
          (mulHead (downsampleFactor ds) (broadcastIntOrList (numConvs layout) st)))
    ∧ (repStrides (resolveResBlock ic layout filters ks st ds bt g op n_reps) 0
      = (resolveResBlock ic layout filters ks st ds bt g op n_reps).strides_d)
    ∧ (repSideStride (resolveResBlock ic layout filters ks st ds bt g op n_reps) 0
      = (broadcastIntOrList (numConvs layout) st).prod * downsampleFactor ds)
    ∧ (∀ i, 1 ≤ i → repStrides (resolveResBlock ic layout filters ks st ds bt g op n_reps) i
      = (resolveResBlock ic layout filters ks st ds bt g op n_reps).strides)
    ∧ (∀ i, 1 ≤ i → repSideStride (resolveResBlock ic layout filters ks st ds bt g op n_reps) i
      = (broadcastIntOrList (numConvs layout) st).prod) := by
  refine ⟨?_, ?_, ?_, ?_, ?_, ?_⟩
  · simp [resolveResBlock]
  · simp [resolveResBlock, hd]
  · simp [resolveResBlock, repStrides]
  · simp [resolveResBlock, repSideStride, hd]
  · intro i hi
    match i, hi with
    | (j + 1), _ =>
      simp [resolveResBlock, repStrides, getD_replicate_self]
  · intro i hi
    match i, hi with
    | (j + 1), _ =>
      simp [resolveResBlock, repSideStride, getD_replicate_self]

/-- C4 (witness): the downsample statement at the spec's scenario (factor 2,
main-path strides [1, 1], two repetitions). -/
theorem c4_witness :
    (repSideStride (resolveResBlock 7 ['c','n','a','c','n','a'] (.fInt 3) (.iInt 3) (.iInt 1)
        .fTrue .fFalse (.gInt 1) '+' 2) 0
      = (broadcastIntOrList (numConvs ['c','n','a','c','n','a']) (.iInt 1)).prod
          * downsampleFactor .fTrue)
    ∧ (repStrides (resolveResBlock 7 ['c','n','a','c','n','a'] (.fInt 3) (.iInt 3) (.iInt 1)
        .fTrue .fFalse (.gInt 1) '+' 2) 1
      = (resolveResBlock 7 ['c','n','a','c','n','a'] (.fInt 3) (.iInt 3) (.iInt 1)
          .fTrue .fFalse (.gInt 1) '+' 2).strides) := by
  obtain ⟨h1, h2, h3, h4, h5, h6⟩ :=
    c4_downsample 7 ['c','n','a','c','n','a'] (.fInt 3) (.iInt 3) (.iInt 1)
      .fTrue .fFalse (.gInt 1) '+' 2 (by decide)
  exact ⟨h4, h5 1 (by decide)⟩

/-- C5 (code evaluation at the failing input): with `layout='cnacna'` and
`groups=[1, 2]` (a sequence whose length already matches the 2 convolutions),
the code's unconditional `groups = [groups] * num_convs` produces the nested
list `[[1, 2], [1, 2]]` rather than using the given sequence `[1, 2]` as-is. -/
theorem c5_groups_replicated :
    ((resolveResBlock 16 ['c','n','a','c','n','a'] (.fInt 64) (.iInt 3) (.iInt 1)
        .fFalse .fFalse (.gList [1, 2]) '+' 1).groups
      = [.gList [1, 2], .gList [1, 2]])
    ∧ ((resolveResBlock 16 ['c','n','a','c','n','a'] (.fInt 64) (.iInt 3) (.iInt 1)
        .fFalse .fFalse (.gList [1, 2]) '+' 1).groups ≠ [.gInt 1, .gInt 2]) := by
  decide

/-- C2: dropblock is an exact no-op (identity branch taken, no sampling pass,
output literally the input) if and only if the dropout rate is 0 or training
mode is off. -/
theorem c2_noop_iff (inputs : Shaped) (rate : ℚ) (bs : BlockArg) (is_training : Bool)
    (df : DataFormat) (noise : ℚ → Idx → ℚ) :
    ((dropblock inputs rate bs is_training df noise).sampled = false
      ∧ (dropblock inputs rate bs is_training df noise).out = .ok inputs)
    ↔ (rate = 0 ∨ is_training = false) := by
  cases is_training with
  | false => simp [dropblock]
  | true =>
      by_cases hr : rate = 0
      · simp [dropblock, hr]
      · simp [dropblock, hr]

set_option maxHeartbeats 1000000 in
/-- C6 (counterexample): input of spatial extent 4 with requested block_size 7.
The clamp yields 4, yet the pooling window used by the code is the unclamped 7;
with a seed point in the (size-1) inner area the code's final mask drops all
four positions (sum 0), while the mask prescribed by the claim (window also
clamped) keeps one position (sum 1) — so the effective block size used by
dropblock is not everywhere the clamped value. -/
theorem c6_counterexample :
    ((dropblockMask inputs141 (1/2) (.bInt 7) onesNoise .channelsLast).map sumArr = .ok 0)
    ∧ ((dropblockMaskClaim inputs141 (1/2) (.bInt 7) onesNoise .channelsLast).map sumArr = .ok 1)
    ∧ (clampBlockSize [7] (spatialDimsOf .channelsLast inputs141.shape) = [4])
    ∧ (poolDims .channelsLast [7] = [1, 7, 1]) := by
  refine ⟨?_, ?_, by decide, by decide⟩
  · simp [dropblockMask, inputs141, spatialDimsOf, channelsOf, resolveBlockSize,
      clampBlockSize, innerArea, gammaOf, samplingMaskShape, fullPads, poolDims,
      padArr, maxPoolSame, sumArr, enumIdx, rangeInt, inBounds, onesNoise, Except.map,
      min_def, max_def, List.range, List.range.loop]
    norm_num
  · simp [dropblockMaskClaim, inputs141, spatialDimsOf, channelsOf, resolveBlockSize,
      clampBlockSize, innerArea, gammaOf, samplingMaskShape, fullPads, poolDims,
      padArr, maxPoolSame, sumArr, enumIdx, rangeInt, inBounds, onesNoise, Except.map,
      min_def, max_def, List.range, List.range.loop]
    norm_num

/-- C6 (amended): the block size used for the inner-area, gamma and padding
computations is the requested value clamped elementwise into
[1, spatial extent] (so it equals the spatial extent whenever the request
exceeds it); the max-pooling dilation window, however, uses the unclamped
requested block size. -/
theorem c6_clamp (bsRaw spatial : List Int) (h : ∀ s ∈ spatial, 1 ≤ s) :
    (clampBlockSize bsRaw spatial
      = List.zipWith (fun b s => min s (max 1 b)) bsRaw spatial)
    ∧ (∀ b s : Int, 1 ≤ s → s < b → clampBlockSize [b] [s] = [s])
    ∧ (poolDims .channelsLast bsRaw = 1 :: bsRaw ++ [1])
    ∧ (poolDims .channelsFirst bsRaw = 1 :: 1 :: bsRaw) := by
  refine ⟨?_, ?_, rfl, rfl⟩
  · induction bsRaw generalizing spatial with
    | nil => simp [clampBlockSize]
    | cons b bs ih =>
        cases spatial with
        | nil => simp [clampBlockSize]
        | cons s ss =>
            have hs : 1 ≤ s := h s (by simp)
            have hss : ∀ x ∈ ss, 1 ≤ x := fun x hx => h x (by simp [hx])
            have htail := ih ss hss
            simp only [clampBlockSize, List.zipWith_cons_cons, List.map_cons] at htail ⊢
            rw [clamp_elem b s hs, htail]
  · intro b s h1 h2
    simp only [clampBlockSize, List.zipWith_cons_cons, List.zipWith_nil_right,
      List.map_cons, List.map_nil]
    congr 1
    simp [min_def, max_def]
    split_ifs <;> omega

/-- C6 (witness): the clamp characterisation evaluated at requested block size
7 and spatial extent 4. -/
theorem c6_witness :
    clampBlockSize [7] [4] = List.zipWith (fun b s => min s (max 1 b)) [7] [4] :=
  (c6_clamp [7] [4] (by decide)).1

/-- C7: block_size resolution broadcasts an int, uses a matching-length tuple
as-is, and raises a descriptive error exactly when the argument is neither an
int nor a tuple, or is a tuple whose length differs from the spatial
dimensionality; no silent coercion occurs. -/
theorem c7_block_size_validation (spatial_ndim : Nat) :
    (∀ n : Int, resolveBlockSize (.bInt n) spatial_ndim = .ok (List.replicate spatial_ndim n))
    ∧ (∀ l : List Int, resolveBlockSize (.bTuple l) spatial_ndim
        = if l.length = spatial_ndim then .ok l
          else .error "Length of `block_size` should be the same as spatial dimensions of input.")
    ∧ (∀ q : ℚ, resolveBlockSize (.bFloat q) spatial_ndim
        = .error "block_size should be int or tuple!")
    ∧ (∀ bs : BlockArg, (∃ e, resolveBlockSize bs spatial_ndim = .error e)
        ↔ ((∃ q, bs = .bFloat q) ∨ ∃ l, bs = .bTuple l ∧ l.length ≠ spatial_ndim)) := by
  refine ⟨?_, ?_, ?_, ?_⟩
  · intro n
    rfl
  · intro l
    rfl
  · intro q
    rfl
  intro bs
  cases bs with
  | bInt n => simp [resolveBlockSize]
  | bTuple l =>
      by_cases hl : l.length = spatial_ndim <;> simp [resolveBlockSize, hl]
  | bFloat q => simp [resolveBlockSize]

/-- C8: the Bernoulli seed probability equals
rate * prod(spatial) / (prod(effective block sizes) * prod(inner areas)) with
inner area per dimension = spatial extent - effective block size + 1, where
the effective block size is the clamped one. -/
theorem c8_gamma_formula (rate : ℚ) (spatial bsRaw : List Int) :
    gammaOf rate spatial (clampBlockSize bsRaw spatial)
      = rate * prodQ spatial
        / (prodQ (clampBlockSize bsRaw spatial)
           * prodQ (List.zipWith (fun s b => s - b + 1) spatial (clampBlockSize bsRaw spatial))) := by
  unfold gammaOf innerArea
  rw [div_div]

/-- C9: the rescaling divisor is the bare sum of kept mask elements; with the
all-ones Bernoulli sample on a [1, 1, 1] input and block_size 1 the final mask
sum is 0 while `_dropblock` still succeeds (no error, no epsilon guard), and
this holds for every dropout_rate in (0, 1). -/
theorem c9_zero_divisor (rate : ℚ) (h1 : 0 < rate) (h2 : rate < 1) :
    ((dropblockMask inputs111 rate (.bInt 1) onesNoise .channelsLast).map sumArr = .ok 0)
    ∧ (exceptIsOk (_dropblock inputs111 rate (.bInt 1) onesNoise .channelsLast) = true) := by
  constructor
  · simp [dropblockMask, inputs111, spatialDimsOf, channelsOf, resolveBlockSize,
      clampBlockSize, innerArea, gammaOf, samplingMaskShape, fullPads, poolDims,
      padArr, maxPoolSame, sumArr, enumIdx, rangeInt, inBounds, onesNoise, Except.map,
      min_def, max_def, List.range, List.range.loop]
    norm_num
  · rfl

/-- C9 (witness): the zero-divisor statement at dropout_rate 1/2. -/
theorem c9_witness :
    ((0:ℚ) < 1/2) ∧ ((1:ℚ)/2 < 1)
    ∧ (((dropblockMask inputs111 (1/2) (.bInt 1) onesNoise .channelsLast).map sumArr = .ok 0)
       ∧ (exceptIsOk (_dropblock inputs111 (1/2) (.bInt 1) onesNoise .channelsLast) = true)) :=
  ⟨by norm_num, by norm_num, c9_zero_divisor (1/2) (by norm_num) (by norm_num)⟩

/-- C10: for every base (Encoder) configuration, ResNeXt50's default config
agrees with ResNet50's default config on every leaf path other than
'body/encoder/blocks/groups', and maps that path to 32. -/
theorem c10_resNeXt50_frame (base : Config) (p : String)
    (hp : p ≠ "body/encoder/blocks/groups") :
    (cget (resNeXt50DefaultConfig base) p = cget (resNet50DefaultConfig base) p)
    ∧ (cget (resNeXt50DefaultConfig base) "body/encoder/blocks/groups"
        = some (.vInt 32)) := by
  have hne : (("body/encoder/blocks/groups" : String) == p) = false := by
    simp [Ne.symm hp]
  constructor
  · simp [resNeXt50DefaultConfig, cset, cget, List.find?, hne]
  · simp [resNeXt50DefaultConfig, cset, cget, List.find?]

/-- C10 (witness): the frame statement evaluated at the empty base config and
the 'loss' leaf path. -/
theorem c10_witness :
    (cget (resNeXt50DefaultConfig []) "loss" = cget (resNet50DefaultConfig []) "loss")
    ∧ (cget (resNeXt50DefaultConfig []) "body/encoder/blocks/groups"
        = some (.vInt 32)) :=
  ⟨(c10_resNeXt50_frame [] "loss" (by decide)).1,
   (c10_resNeXt50_frame [] "loss" (by decide)).2⟩
